import Mathlib

/-!
# Verification of the boardgamegeek client library core

Shallow embedding of `src/boardgamegeek/utils.py` and
`src/boardgamegeek/collection.py`:

* the XML field-extraction utilities (`xml_subelement_attr`,
  `xml_subelement_attr_list`),
* the attribute-backed data wrapper (`DictObject`),
* the ordered collection wrapper (`Collection`),
* the resilient document fetcher (`get_parsed_xml_response`) modelled as a
  state machine over a scripted HTTP session, recording the observable
  side effects (requests issued with their per-attempt timeout, sleeps
  performed with their duration) in a trace,
* the cache-session factory (`get_cache_session_from_uri`) together with a
  model of the standard library URL parser it calls.

Times (timeouts, delays) are modelled as rationals; all the arithmetic the
source performs on them (`* 1.5`, `* 2.5`) is exact, so no floating-point
rounding is lost by this choice.
-/

set_option autoImplicit false

universe u v

/-! ## XML document nodes

`xml.etree.ElementTree` elements: a tag, an attribute mapping, optional
text, and an ordered list of children.  Parsed documents are immutable, so
a plain inductive is a faithful model. -/

/-- A parsed XML element: tag, attribute map, text, ordered children. -/
inductive XmlElement where
  | mk : String → List (String × String) → Option String → List XmlElement → XmlElement

/-- The element's tag. -/
def XmlElement.tag : XmlElement → String
  | .mk t _ _ _ => t

/-- The element's attribute mapping (`elem.attrib`). -/
def XmlElement.attrib : XmlElement → List (String × String)
  | .mk _ a _ _ => a

/-- The element's text (`elem.text`). -/
def XmlElement.text : XmlElement → Option String
  | .mk _ _ t _ => t

/-- The element's ordered children. -/
def XmlElement.children : XmlElement → List XmlElement
  | .mk _ _ _ c => c

/-- `elem.find(tag)`: the first direct child with the given tag, if any. -/
def XmlElement.find (el : XmlElement) (t : String) : Option XmlElement :=
  el.children.find? fun c => c.tag == t

/-- `elem.findall(tag)`: all direct children with the given tag, in
document order. -/
def XmlElement.findall (el : XmlElement) (t : String) : List XmlElement :=
  el.children.filter fun c => c.tag == t

/-! ## Dynamic values

Attribute strings may be converted by an arbitrary callable; the dynamic
result is modelled by a small value type, with `Pv.str` as the injection of
unconverted attribute strings.  A raising Python callable is modelled as a
function into `Except Unit`. -/

/-- A dynamically-typed Python value produced by an extraction. -/
inductive Pv where
  | str : String → Pv
  | int : Int → Pv
deriving DecidableEq

/-! ## `xml_subelement_attr` (utils.py lines 56-98)

Result type: `.error ()` models an exception propagating out of the call
(a conversion failure with `quiet=False`); `.ok none` models returning
Python `None`; `.ok (some v)` models returning the value `v`.  The
`default` argument is an `Option Pv` because the Python default is `None`
unless supplied. -/

/-- `xml_subelement_attr(xml_elem, subelement, convert, attribute, default,
quiet)` from utils.py lines 80-98. -/
def xml_subelement_attr (xml_elem : Option XmlElement) (subelement : String)
    (convert : Option (String → Except Unit Pv)) (attrName : String)
    (default : Option Pv) (quiet : Bool) : Except Unit (Option Pv) :=
  -- `if xml_elem is None or not subelement: return None`
  match xml_elem with
  | none => .ok none
  | some el =>
    if subelement = "" then .ok none
    else
      -- `subel = xml_elem.find(subelement)`
      match el.find subelement with
      | none => .ok default
      | some subel =>
        -- `value = subel.attrib.get(attribute)`
        match subel.attrib.lookup attrName with
        | none => .ok default
        | some s =>
          match convert with
          | none => .ok (some (.str s))
          | some f =>
            match f s with
            | .ok v => .ok (some v)
            | .error u => if quiet then .ok default else .error u

/-- The per-element body of the loop in `xml_subelement_attr_list`
(utils.py lines 128-140): read the attribute, fall back to the default
when missing, convert, and on a conversion failure return the default when
`quiet` else propagate. -/
def attrElemValue (convert : Option (String → Except Unit Pv)) (attrName : String)
    (default : Option Pv) (quiet : Bool) (e : XmlElement) : Except Unit (Option Pv) :=
  match e.attrib.lookup attrName with
  | none => .ok default
  | some s =>
    match convert with
    | none => .ok (some (.str s))
    | some f =>
      match f s with
      | .ok v => .ok (some v)
      | .error u => if quiet then .ok default else .error u

/-- The `for e in subel: ... res.append(value)` loop of
`xml_subelement_attr_list`, with the accumulated `res` made explicit.
An exception raised by an element's conversion aborts the whole call. -/
def attrListLoop (f : XmlElement → Except Unit (Option Pv)) :
    List XmlElement → List (Option Pv) → Except Unit (List (Option Pv))
  | [], res => .ok res
  | e :: rest, res =>
    match f e with
    | .error u => .error u
    | .ok v => attrListLoop f rest (res ++ [v])

/-- `xml_subelement_attr_list(xml_elem, subelement, convert, attribute,
default, quiet)` from utils.py lines 123-142. -/
def xml_subelement_attr_list (xml_elem : Option XmlElement) (subelement : String)
    (convert : Option (String → Except Unit Pv)) (attrName : String)
    (default : Option Pv) (quiet : Bool) : Except Unit (Option (List (Option Pv))) :=
  -- `if xml_elem is None or not subelement: return None`
  match xml_elem with
  | none => .ok none
  | some el =>
    if subelement = "" then .ok none
    else
      match attrListLoop (attrElemValue convert attrName default quiet)
          (el.findall subelement) [] with
      | .error u => .error u
      | .ok res => .ok (some res)

/-- Monadic map over a child list: the first propagating conversion
failure aborts the traversal, otherwise the per-element results are
collected in document order.  Used to specify `xml_subelement_attr_list`
in terms of its per-element rule. -/
def traverseElems (f : XmlElement → Except Unit (Option Pv)) :
    List XmlElement → Except Unit (List (Option Pv))
  | [] => .ok []
  | e :: rest =>
    match f e with
    | .error u => .error u
    | .ok v =>
      match traverseElems f rest with
      | .error u => .error u
      | .ok vs => .ok (v :: vs)

/-! ## `DictObject` (utils.py lines 34-53)

Python attribute access on a `DictObject` instance resolves in order:
the instance attribute `_data` (set by `__init__`), then the class's own
plain methods (`data`, and the special methods `__init__`/`__getattr__`
themselves), and only when all of those miss does Python call the
`__getattr__` hook of lines 42-46, which returns `self._data[item]` when
`item` is a key and raises `AttributeError` otherwise.  (The hook's own
`item != "_data"` test is an anti-recursion safeguard that normal lookup
never reaches, because the instance attribute is found first.)  Dunder
attributes inherited from `object` are outside the model's scope. -/

/-- The possible results of reading an attribute on a `DictObject`. -/
inductive PyAttr (V : Type u) where
  | val : V → PyAttr V
  | rawMap : PyAttr V
  | method : PyAttr V
deriving DecidableEq

/-- `getattr(obj, name)` for a `DictObject` wrapping the mapping `data`
(utils.py lines 34-53): instance attribute, then class methods, then the
`__getattr__` hook. -/
def DictObject.getattr {V : Type u} (data : List (String × V)) (name : String) :
    Except Unit (PyAttr V) :=
  if name = "_data" then .ok .rawMap
  else if name = "data" ∨ name = "__init__" ∨ name = "__getattr__" then .ok .method
  else
    match data.lookup name with
    | some v => .ok (.val v)
    | none => .error ()

/-! ## `Collection` (collection.py lines 23-64)

The wrapped mapping holds an `"items"` list of raw records plus scalar
metadata; it is modelled as an association list whose values are either
an item list or a scalar.  The in-place mutations (`__init__`'s
`kw["items"] = []`, `add_game`'s `append`) become explicit state passing. -/

/-- A value stored in a `Collection`'s backing mapping: the `"items"` list
of raw records, or a scalar metadata entry. -/
inductive CollVal (R : Type u) (M : Type v) where
  | items : List R → CollVal R M
  | scalar : M → CollVal R M

/-- The backing mapping of a `Collection`. -/
abbrev CollectionData (R : Type u) (M : Type v) := List (String × CollVal R M)

/-- Modelled from the spec: `Boardgame` (src/boardgamegeek/boardgame.py is
not part of the sources) — "an attribute-backed wrapper around one domain
record drawn from a Collection's raw item list".  Only its constructor is
relevant here, so it is an opaque one-field wrapper. -/
structure Boardgame (R : Type u) where
  record : R
deriving DecidableEq

/-- `Collection.__init__` (collection.py lines 25-29): copy the mapping
and default the `"items"` entry to an empty list when absent (a Python
dict assignment appends the new key at the end). -/
def Collection.init {R : Type u} {M : Type v} (data : CollectionData R M) :
    CollectionData R M :=
  if (data.lookup "items").isSome then data
  else data ++ [("items", CollVal.items [])]

/-- `Collection.add_game` (collection.py lines 41-42):
`self._data["items"].append(game)`.  `none` models the `AttributeError`
Python would raise when the `"items"` entry is missing or not a list. -/
def Collection.add_game {R : Type u} {M : Type v} (c : CollectionData R M) (g : R) :
    Option (CollectionData R M) :=
  match c.lookup "items" with
  | some (.items l) =>
    some (c.map fun p => if p.1 = "items" then ("items", CollVal.items (l ++ [g])) else p)
  | _ => none

/-- `Collection.__len__` / the `size` property (collection.py lines 47-48,
54-56): `len(self._data["items"])`. -/
def Collection.length {R : Type u} {M : Type v} (c : CollectionData R M) : Option Nat :=
  match c.lookup "items" with
  | some (.items l) => some l.length
  | _ => none

/-- `Collection.iteritems` (collection.py lines 62-64): each call builds a
fresh generator over `self._data["items"]`, yielding `Boardgame(item)` for
every raw record in insertion order; as a pure function of the state it
returns the complete yielded sequence. -/
def Collection.iteritems {R : Type u} {M : Type v} (c : CollectionData R M) :
    Option (List (Boardgame R)) :=
  match c.lookup "items" with
  | some (.items l) => some (l.map Boardgame.mk)
  | _ => none

/-- Appending a whole list of games one at a time, propagating the
`Option` state. -/
def Collection.addGames {R : Type u} {M : Type v} (c : Option (CollectionData R M))
    (gs : List R) : Option (CollectionData R M) :=
  gs.foldl (fun oc g => oc.bind fun c' => Collection.add_game c' g) c

/-! ## The resilient document fetcher (utils.py lines 187-271)

The HTTP session is scripted: attempt `k` (counting from 0) either yields
a response or raises a transport timeout.  The loop
`retr = retries - 1; while retr >= 0:` is translated structurally with the
counter `rem` standing for the number of loop iterations still permitted,
`rem = retr + 1`; the `retr == 0` tests of the source become `rem = 0`
after the pattern `rem + 1`, and a fall-through past `while retr >= 0`
(that is, `rem = 0` on entry) is the final
`raise BoardGameGeekAPIError("couldn't fetch data ...")` of line 271.
The observable effects — each `requests_session.get` with the per-attempt
timeout it was given, each `time.sleep` with its duration — are recorded
in an event trace. -/

/-- An HTTP response as the fetcher consumes it: status code, optional
`content-type` header, body text. -/
structure HttpResponse where
  status : Nat
  contentType : Option String
  text : String

/-- One scripted attempt: a response, or a transport timeout
(`requests.exceptions.Timeout`). -/
inductive HttpOutcome where
  | ok : HttpResponse → HttpOutcome
  | timedOut : HttpOutcome

/-- An observable side effect of a fetch call. -/
inductive Event where
  | request : ℚ → Event
  | sleep : ℚ → Event
deriving DecidableEq

/-- Discriminates the three `BoardGameGeekAPIError` messages of utils.py
lines 263, 269 and 271. -/
inductive ApiErrorKind where
  | parseFailure
  | fetchFailure
  | exhaustedRetries
deriving DecidableEq

/-- The error taxonomy of `get_parsed_xml_response`.  The optional `Int`
carries the retry count named by a terminal
"failed to retrieve data after {retries} retries" message (`none` is the
bare, message-less raise). -/
inductive FetchError where
  | retryableRequest : Option Int → FetchError
  | nonXMLResponse : FetchError
  | timeoutError : Option Int → FetchError
  | apiError : ApiErrorKind → FetchError
deriving DecidableEq

/-- `str.startswith` on the content-type header, character by character. -/
def listStartsWith {α : Type u} [DecidableEq α] : List α → List α → Bool
  | _, [] => true
  | [], _ :: _ => false
  | a :: s, b :: p => a = b && listStartsWith s p

/-- `s.startswith(pre)` for strings. -/
def strStartsWith (s pre : String) : Bool :=
  listStartsWith s.toList pre.toList

/-- The retry loop of `get_parsed_xml_response` (utils.py lines 207-271).
Arguments track the loop state: `rem` is the remaining permitted
iterations (`retr + 1`), `attempt` indexes the scripted session,
`timeout`/`retry_delay` are the current per-attempt timeout and
inter-retry delay, and `trace` accumulates the observable events. -/
def fetchLoop (session : Nat → HttpOutcome) (parse : String → Except Unit XmlElement)
    (retries : Int) :
    Nat → Nat → ℚ → ℚ → List Event → Except FetchError XmlElement × List Event
  | 0, _, _, _, trace =>
      -- fell through `while retr >= 0` (line 271)
      (.error (.apiError .exhaustedRetries), trace)
  | rem + 1, attempt, timeout, retry_delay, trace =>
      match session attempt with
      | .timedOut =>
          -- `except requests.exceptions.Timeout` (lines 250-260)
          let trace := trace ++ [.request timeout]
          if retries = 0 then (.error (.timeoutError none), trace)
          else if rem = 0 then (.error (.timeoutError (some retries)), trace)
          else fetchLoop session parse retries rem (attempt + 1) (timeout * 2.5)
            retry_delay trace
      | .ok r =>
          let trace := trace ++ [.request timeout]
          if r.status = 202 then
            -- lines 212-227
            if retries = 0 then (.error (.retryableRequest none), trace)
            else if rem = 0 then (.error (.retryableRequest (some retries)), trace)
            else fetchLoop session parse retries rem (attempt + 1) timeout
              (retry_delay * 1.5) (trace ++ [.sleep retry_delay])
          else if r.status = 503 then
            -- lines 228-235: no exhaustion test before the decrement
            fetchLoop session parse retries rem (attempt + 1) timeout
              (retry_delay * 1.5) (trace ++ [.sleep retry_delay])
          else
            match r.contentType with
            | none =>
              -- `None.startswith` raises `AttributeError`, caught by the
              -- generic handler of lines 268-269
              (.error (.apiError .fetchFailure), trace)
            | some ct =>
              if ¬ strStartsWith ct "text/xml" then
                -- lines 237-238
                (.error .nonXMLResponse, trace)
              else
                match parse r.text with
                | .error _ =>
                  -- `except ETParseError` (lines 262-263)
                  (.error (.apiError .parseFailure), trace)
                | .ok root =>
                  -- lines 240-248
                  (.ok root, trace)

/-- `get_parsed_xml_response(requests_session, url, params, timeout,
retries, retry_delay)` (utils.py lines 187-271).  The url/params only
select which scripted session answers, so they are absorbed into
`session`; `retries.toNat = (retries - 1) + 1` is the permitted iteration
count of `while retr >= 0` started at `retr = retries - 1`. -/
def get_parsed_xml_response (session : Nat → HttpOutcome)
    (parse : String → Except Unit XmlElement) (timeout : ℚ) (retries : Int)
    (retry_delay : ℚ) : Except FetchError XmlElement × List Event :=
  fetchLoop session parse retries retries.toNat 0 timeout retry_delay []

/-! ## The cache-session factory (utils.py lines 274-320)

`get_cache_session_from_uri` delegates parsing to the standard library's
`urlparse`/`parse_qs` and `int`; those collaborators are modelled below on
the character level (scheme extraction, `//`-netloc with the IPv6 bracket
validity check that is the parser's one failure mode, first-`?` query
split, `&`-separated `key=value` pairs with blank values dropped).
Percent-decoding and the legacy `;` pair separator play no role in cache
URIs and are outside the model.  The factory's `try/except` turns any
exception from these collaborators into `BoardGameGeekError`, and an
unrecognized scheme falls through to the final
`raise BoardGameGeekError("invalid cache URI")`; both are the spec's
ConfigurationError, modelled by one constructor. -/

/-- Split a character list on every occurrence of `sep`
(Python `str.split(sep)`; the empty string yields `[""]`). -/
def splitAllChar (sep : Char) (l : List Char) : List (List Char) :=
  l.foldr
    (fun c acc =>
      if c = sep then [] :: acc
      else
        match acc with
        | [] => [[c]]
        | g :: gs => (c :: g) :: gs)
    [[]]

/-- Split at the first occurrence of `sep` (Python `str.split(sep, 1)`);
when `sep` is absent the second component is empty. -/
def splitOnceChar (sep : Char) (l : List Char) : List Char × List Char :=
  match splitAllChar sep l with
  | [] => (l, [])
  | [x] => (x, [])
  | x :: xs => (x, List.intercalate [sep] xs)

/-- The characters `urlparse` accepts in a scheme. -/
def isSchemeChar (c : Char) : Bool :=
  c.isAlphanum || c = '+' || c = '-' || c = '.'

/-- The pieces of a parsed URL that the factory consumes. -/
structure UrlParts where
  scheme : String
  netloc : String
  path : String
  query : String
deriving DecidableEq

/-- Model of the standard library's `urlparse` on cache URIs: strip a
`scheme:` made of scheme characters (lowercased), consume a `//netloc` up
to the next `/`, `?` or `#` — rejecting a netloc with unbalanced square
brackets ("Invalid IPv6 URL", the parser's failure mode) — then split the
fragment at the first `#` and the query at the first `?`. -/
def urlparseModel (uri : String) : Except Unit UrlParts :=
  let l := uri.toList
  let (cand, aft) := splitOnceChar ':' l
  let (scheme, rest) :=
    if l.contains ':' ∧ cand ≠ [] ∧ cand.all isSchemeChar then
      (cand.map Char.toLower, aft)
    else ([], l)
  let (netloc, rest) :=
    match rest with
    | '/' :: '/' :: tl =>
      let nl := tl.takeWhile fun c => c ≠ '/' ∧ c ≠ '?' ∧ c ≠ '#'
      (nl, tl.drop nl.length)
    | _ => ([], rest)
  if (netloc.contains '[' ∧ ¬ netloc.contains ']') ∨
      (netloc.contains ']' ∧ ¬ netloc.contains '[') then
    .error ()
  else
    let (rest, _fragment) := splitOnceChar '#' rest
    let (path, query) := splitOnceChar '?' rest
    .ok ⟨String.mk scheme, String.mk netloc, String.mk path, String.mk query⟩

/-- Model of `parse_qs` restricted to what the factory reads: the ordered
`key=value` pairs of an `&`-separated query, dropping pairs without `=` or
with a blank value (`keep_blank_values=False`). -/
def qsPairs (query : String) : List (String × String) :=
  (splitAllChar '&' query.toList).filterMap fun part =>
    match splitAllChar '=' part with
    | [] => none
    | [_] => none
    | k :: vs =>
      let v := List.intercalate ['='] vs
      if v = [] then none else some (String.mk k, String.mk v)

/-- `args.get(key, [dflt])[0]`: the first value bound to `key` in the
query, or the default. -/
def qsGetFirst (query key dflt : String) : String :=
  match (qsPairs query).filter fun p => p.1 = key with
  | [] => dflt
  | p :: _ => p.2

/-- Strip leading and trailing whitespace. -/
def trimChars (l : List Char) : List Char :=
  ((l.dropWhile Char.isWhitespace).reverse.dropWhile Char.isWhitespace).reverse

/-- Model of Python's `int(str)`: optional sign and a nonempty digit run
after stripping whitespace; anything else raises `ValueError`. -/
def pyInt (s : String) : Except Unit Int :=
  let t := trimChars s.toList
  let sd : Int × List Char :=
    match t with
    | '+' :: rest => (1, rest)
    | '-' :: rest => (-1, rest)
    | l => (1, l)
  if sd.2 = [] then .error ()
  else if sd.2.all Char.isDigit then
    .ok (sd.1 * (sd.2.foldl (fun acc c => acc * 10 + (c.toNat - '0'.toNat)) 0 : Nat))
  else .error ()

/-- The observable configuration of the session the factory builds, or
the `BoardGameGeekError` the spec calls ConfigurationError. -/
inductive CacheSessionResult where
  | memorySession (expire_after : Int)
  | sqliteSession (cache_name : String) (expire_after : Int) (fast_save : Bool)
  | configurationError
deriving DecidableEq

/-- `get_cache_session_from_uri(uri)` (utils.py lines 274-320).  The
`try/except` wrapping `urlparse`/`parse_qs`/`int` maps their failures to
`BoardGameGeekError`; an unrecognized scheme reaches the final
`raise BoardGameGeekError("invalid cache URI")`. -/
def get_cache_session_from_uri (uri : String) : CacheSessionResult :=
  match urlparseModel uri with
  | .error _ => .configurationError
  | .ok r =>
    match pyInt (qsGetFirst r.query "ttl" "3600") with
    | .error _ => .configurationError
    | .ok ttl =>
      if r.scheme = "memory" then .memorySession ttl
      else if r.scheme = "sqlite" then
        .sqliteSession r.path ttl (qsGetFirst r.query "fast_save" "0" ≠ "0")
      else .configurationError

deriving instance DecidableEq for Except

/-! ## Concrete fixtures

A tiny well-formed document, a parser recognising exactly its serialised
form, and the scripted responses the concrete claims exercise. -/

/-- The root element of the demo document `<doc/>`. -/
def demoRoot : XmlElement := .mk "doc" [] none []

/-- A parser that accepts exactly the body `<doc/>` (any other body is
malformed). -/
def demoParse : String → Except Unit XmlElement :=
  fun s => if s = "<doc/>" then .ok demoRoot else .error ()

/-- A 202 "accepted, not ready" response. -/
def resp202 : HttpResponse := ⟨202, some "text/xml", ""⟩

/-- A 202 response carrying no `content-type` header. -/
def resp202noCT : HttpResponse := ⟨202, none, ""⟩

/-- A successful XML response with a well-formed body. -/
def resp200xml : HttpResponse := ⟨200, some "text/xml", "<doc/>"⟩

/-- A 200 response whose content type is JSON. -/
def resp200json : HttpResponse := ⟨200, some "application/json", "{}"⟩

/-- A 200 response with no `content-type` header at all. -/
def resp200noCT : HttpResponse := ⟨200, none, "<doc/>"⟩

/-- A 500 response that nevertheless carries well-formed XML. -/
def resp500xml : HttpResponse := ⟨500, some "text/xml", "<doc/>"⟩

/-- A 503 "rate limited" response. -/
def resp503 : HttpResponse := ⟨503, some "text/html", ""⟩

/-- A sample XML node: two `present` children carrying a `value`
attribute (in this order) around one `noval` child without it. -/
def demoEl : XmlElement :=
  .mk "parent" [] none
    [.mk "present" [("value", "abc")] none [],
     .mk "noval" [("other", "x")] none [],
     .mk "present" [("value", "def")] none []]

/-- A conversion callable: Python's `int`, lifted into `Pv`. -/
def convInt : String → Except Unit Pv :=
  fun s => (pyInt s).map Pv.int

deriving instance DecidableEq for CollVal

/-! ## Helper lemmas -/

/-- The XML content-type accepts itself. -/
theorem strStartsWith_xml_self : strStartsWith "text/xml" "text/xml" = true := by decide

/-- A JSON content-type is not an XML one for the fetcher's check. -/
theorem strStartsWith_json_xml : strStartsWith "application/json" "text/xml" = false := by
  decide

/-! ## C1 -/

/-- C1: with `retries=0` the loop guard `while retr >= 0` (entered at
`retr = -1`) never admits an iteration, so `get_parsed_xml_response` makes
no HTTP attempt at all — whatever the session would have answered — and
falls through to the line-271
`BoardGameGeekAPIError("couldn't fetch data within the configured number
of retries")`; the `retries == 0` branch of line 213 that would raise
`BoardGameGeekAPIRetryError` is unreachable.  Zero sleeps (indeed zero
events) occur.  This contradicts the claim's RetryableRequest. -/
theorem c1_retries_zero_no_attempt (session : Nat → HttpOutcome)
    (parse : String → Except Unit XmlElement) (t d : ℚ) :
    get_parsed_xml_response session parse t 0 d =
      (.error (.apiError .exhaustedRetries), []) := rfl

/-! ## C2 -/

/-- C2 (amended): with `retries=3` and the default `retry_delay=5`, only
two consecutive 202 responses can be absorbed: a 200 XML response on the
third attempt yields the parsed root after exactly two sleeps of 5 and 7.5
seconds, in that order; a third consecutive 202 instead raises the
terminal RetryableRequest naming 3 retries, after the same two sleeps —
the claimed third sleep of 11.25 seconds never happens under this
budget. -/
theorem c2_two_sleeps_then_success (parse : String → Except Unit XmlElement)
    (body : String) (root : XmlElement) (r2 : HttpResponse) (t : ℚ)
    (h202 : r2.status = 202) (hp : parse body = .ok root) :
    (get_parsed_xml_response
        (fun k => if k < 2 then .ok r2 else .ok ⟨200, some "text/xml", body⟩)
        parse t 3 5 =
      (.ok root, [.request t, .sleep 5, .request t, .sleep 7.5, .request t]))
    ∧ (get_parsed_xml_response (fun _ => .ok r2) parse t 3 5 =
      (.error (.retryableRequest (some 3)),
        [.request t, .sleep 5, .request t, .sleep 7.5, .request t])) := by
  constructor <;>
    simp [get_parsed_xml_response, fetchLoop, h202, hp, strStartsWith_xml_self] <;>
    norm_num

/-- C2 witness: the amended behaviour at the concrete fixtures. -/
theorem c2_witness :
    (get_parsed_xml_response
        (fun k => if k < 2 then .ok resp202 else .ok ⟨200, some "text/xml", "<doc/>"⟩)
        demoParse 15 3 5 =
      (.ok demoRoot, [.request 15, .sleep 5, .request 15, .sleep 7.5, .request 15]))
    ∧ (get_parsed_xml_response (fun _ => .ok resp202) demoParse 15 3 5 =
      (.error (.retryableRequest (some 3)),
        [.request 15, .sleep 5, .request 15, .sleep 7.5, .request 15])) :=
  c2_two_sleeps_then_success demoParse "<doc/>" demoRoot resp202 15 rfl rfl

/-- C2 counterexample: under `retries=3`, three consecutive 202 responses
followed by a 200 XML response do NOT yield the parsed document — the
third 202 raises the terminal RetryableRequest, the 200 is never fetched,
and only the sleeps 5 and 7.5 are performed. -/
theorem c2_counterexample :
    get_parsed_xml_response
        (fun k => if k < 3 then .ok resp202 else .ok resp200xml)
        demoParse 15 3 5 =
      (.error (.retryableRequest (some 3)),
        [.request 15, .sleep 5, .request 15, .sleep 7.5, .request 15])
    ∧ (.error (.retryableRequest (some 3)) : Except FetchError XmlElement) ≠
        .ok demoRoot := by
  constructor
  · simp [get_parsed_xml_response, fetchLoop, resp202]
    norm_num
  · simp

/-! ## C3 -/

/-- C3 (amended): with `retries=2` and every attempt timing out, the call
raises the terminal TimeoutError naming 2 retries after the SECOND
timed-out attempt; the per-attempt timeouts used are `t` and `2.5t` — the
claimed third attempt with timeout `6.25t` never happens.  No sleeps
occur on the timeout path. -/
theorem c3_timeout_sequence (parse : String → Except Unit XmlElement) (t d : ℚ) :
    get_parsed_xml_response (fun _ => .timedOut) parse t 2 d =
      (.error (.timeoutError (some 2)), [.request t, .request (t * 2.5)]) := by
  simp [get_parsed_xml_response, fetchLoop]

/-- C3 counterexample: at `t = 15` the trace holds exactly two attempts
(timeouts 15 and 37.5), not the claimed three. -/
theorem c3_counterexample :
    get_parsed_xml_response (fun _ => .timedOut) demoParse 15 2 5 =
      (.error (.timeoutError (some 2)), [.request 15, .request 37.5])
    ∧ [Event.request 15, Event.request 37.5].length ≠ 3 := by
  constructor
  · simp [get_parsed_xml_response, fetchLoop]
    norm_num
  · decide

/-! ## C4 -/

/-- C4 (amended): a 503 response performs exactly the backoff of the 202
retry branch — sleep the current delay, multiply the delay by 1.5,
decrement the one shared budget counter, retry — and while the budget and
the configured retries are nonzero the two statuses produce literally the
same continuation.  But the terminal outcomes differ: the 503 branch has
no exhaustion test, so with the budget already at 0 a 503 still sleeps
once more and the loop then exits with the catch-all APIError of line 271,
whereas a 202 at budget 0 raises the terminal RetryableRequest without
sleeping. -/
theorem c4_status503_backoff (s : Nat → HttpOutcome)
    (p : String → Except Unit XmlElement) (retries : Int) (rem attempt : Nat)
    (t d : ℚ) (trace : List Event) (r r2 : HttpResponse)
    (hs : s attempt = .ok r) (h503 : r.status = 503) (h202 : r2.status = 202) :
    (fetchLoop s p retries (rem + 1) attempt t d trace =
      fetchLoop s p retries rem (attempt + 1) t (d * 1.5)
        (trace ++ [.request t, .sleep d]))
    ∧ (∀ s2 : Nat → HttpOutcome, s2 attempt = .ok r2 → rem ≠ 0 → retries ≠ 0 →
      fetchLoop s2 p retries (rem + 1) attempt t d trace =
        fetchLoop s2 p retries rem (attempt + 1) t (d * 1.5)
          (trace ++ [.request t, .sleep d]))
    ∧ (fetchLoop s p retries 1 attempt t d trace =
      (.error (.apiError .exhaustedRetries), trace ++ [.request t, .sleep d]))
    ∧ (∀ s2 : Nat → HttpOutcome, s2 attempt = .ok r2 → retries ≠ 0 →
      fetchLoop s2 p retries 1 attempt t d trace =
        (.error (.retryableRequest (some retries)), trace ++ [.request t])) := by
  refine ⟨?_, fun s2 h2 hrem hret => ?_, ?_, fun s2 h2 hret => ?_⟩
  · simp [fetchLoop, hs, h503]
  · simp [fetchLoop, h2, h202, hrem, hret]
  · simp [fetchLoop, hs, h503]
  · simp [fetchLoop, h2, h202, hret]

/-- C4 witness: the four amended facts at concrete inputs (all-503 and
all-202 scripted sessions, `retries=3` with budget remaining, and the
exhaustion states). -/
theorem c4_witness :
    (fetchLoop (fun _ => .ok resp503) demoParse 3 2 0 15 5 [] =
      fetchLoop (fun _ => .ok resp503) demoParse 3 1 1 15 (5 * 1.5)
        [.request 15, .sleep 5])
    ∧ (fetchLoop (fun _ => .ok resp202) demoParse 3 2 0 15 5 [] =
      fetchLoop (fun _ => .ok resp202) demoParse 3 1 1 15 (5 * 1.5)
        [.request 15, .sleep 5])
    ∧ (fetchLoop (fun _ => .ok resp503) demoParse 3 1 0 15 5 [] =
      (.error (.apiError .exhaustedRetries), [.request 15, .sleep 5]))
    ∧ (fetchLoop (fun _ => .ok resp202) demoParse 3 1 0 15 5 [] =
      (.error (.retryableRequest (some 3)), [.request 15])) := by
  have h := c4_status503_backoff (fun _ => .ok resp503) demoParse 3 1 0 15 5 []
    resp503 resp202 rfl rfl rfl
  exact ⟨h.1, h.2.1 (fun _ => .ok resp202) rfl (by decide) (by decide),
    h.2.2.1, h.2.2.2 (fun _ => .ok resp202) rfl (by decide)⟩

/-- C4 counterexample: with `retries=1` (budget exhausted on entry) an
all-503 session ends in the catch-all APIError — after one further sleep —
and not in the terminal RetryableRequest that a 202 would produce, so the
terminal outcome on budget exhaustion is NOT the same as for 202. -/
theorem c4_counterexample :
    get_parsed_xml_response (fun _ => .ok resp503) demoParse 15 1 5 =
      (.error (.apiError .exhaustedRetries), [.request 15, .sleep 5])
    ∧ (.error (.apiError .exhaustedRetries) : Except FetchError XmlElement) ≠
        .error (.retryableRequest (some 1)) := by
  constructor
  · simp [get_parsed_xml_response, fetchLoop, resp503]
  · simp

/-! ## C5 -/

/-- C5 (amended): once a response's status is neither 202 nor 503, the
fetcher consults ONLY the `content-type` header, never the status: a
content-type not starting with `text/xml` raises NonXMLResponse
immediately — a single request, no sleep, no retry — while a response
whose content-type does start with `text/xml` is parsed and returned even
for a non-success status such as 500.  (In particular a 200
`application/json` response raises NonXMLResponse with no retry.) -/
theorem c5_non_xml_immediate (session : Nat → HttpOutcome)
    (parse : String → Except Unit XmlElement) (retries : Int) (t d : ℚ)
    (r : HttpResponse) (ct : String) (hret : 1 ≤ retries)
    (hs : session 0 = .ok r) (h202 : r.status ≠ 202) (h503 : r.status ≠ 503)
    (hct : r.contentType = some ct) :
    (strStartsWith ct "text/xml" = false →
      get_parsed_xml_response session parse t retries d =
        (.error .nonXMLResponse, [.request t]))
    ∧ (∀ root, strStartsWith ct "text/xml" = true → parse r.text = .ok root →
      get_parsed_xml_response session parse t retries d =
        (.ok root, [.request t])) := by
  obtain ⟨n, hn⟩ : ∃ n, retries.toNat = n + 1 := ⟨retries.toNat - 1, by omega⟩
  constructor
  · intro hx
    unfold get_parsed_xml_response
    rw [hn]
    simp [fetchLoop, hs, h202, h503, hct, hx]
  · intro root hx hparse
    unfold get_parsed_xml_response
    rw [hn]
    simp [fetchLoop, hs, h202, h503, hct, hx, hparse]

/-- C5 witness: a 200 `application/json` response raises NonXMLResponse
after a single attempt, and a 500 `text/xml` response with a well-formed
body is parsed successfully after a single attempt. -/
theorem c5_witness :
    (get_parsed_xml_response (fun _ => .ok resp200json) demoParse 15 3 5 =
      (.error .nonXMLResponse, [.request 15]))
    ∧ (get_parsed_xml_response (fun _ => .ok resp500xml) demoParse 15 3 5 =
      (.ok demoRoot, [.request 15])) :=
  ⟨(c5_non_xml_immediate (fun _ => .ok resp200json) demoParse 3 15 5 resp200json
      "application/json" (by decide) rfl (by decide) (by decide) rfl).1 (by decide),
   (c5_non_xml_immediate (fun _ => .ok resp500xml) demoParse 3 15 5 resp500xml
      "text/xml" (by decide) rfl (by decide) (by decide) rfl).2 demoRoot
      (by decide) rfl⟩

/-- C5 counterexample: a 500 response — a non-success status other than
202/503 — whose content-type is `text/xml` does NOT raise NonXMLResponse:
its body is parsed and returned, because the code never checks the status
code on this path. -/
theorem c5_counterexample :
    get_parsed_xml_response (fun _ => .ok resp500xml) demoParse 15 3 5 =
      (.ok demoRoot, [.request 15])
    ∧ (.ok demoRoot : Except FetchError XmlElement) ≠ .error .nonXMLResponse := by
  constructor
  · simp [get_parsed_xml_response, fetchLoop, resp500xml, demoParse,
      strStartsWith_xml_self]
  · simp

/-! ## C10 -/

/-- C10 (amended): a response with no `content-type` header that reaches
the header check — any status other than 202 and 503 — makes
`r.headers.get("content-type").startswith(...)` raise `AttributeError` on
`None`, which the generic `except Exception` handler of lines 268-269
wraps into the catch-all APIError: so APIError, not NonXMLResponse,
whatever the body.  For statuses 202 and 503 the retry logic intercepts
the response before the header is ever read, so the claim's "regardless of
the response status" does not hold there. -/
theorem c10_missing_content_type (session : Nat → HttpOutcome)
    (parse : String → Except Unit XmlElement) (retries : Int) (t d : ℚ)
    (r : HttpResponse) (hret : 1 ≤ retries) (hs : session 0 = .ok r)
    (h202 : r.status ≠ 202) (h503 : r.status ≠ 503)
    (hct : r.contentType = none) :
    get_parsed_xml_response session parse t retries d =
      (.error (.apiError .fetchFailure), [.request t]) := by
  obtain ⟨n, hn⟩ : ∃ n, retries.toNat = n + 1 := ⟨retries.toNat - 1, by omega⟩
  unfold get_parsed_xml_response
  rw [hn]
  simp [fetchLoop, hs, h202, h503, hct]

/-- C10 witness: a 200 response with no `content-type` header yields the
catch-all APIError after one attempt. -/
theorem c10_witness :
    get_parsed_xml_response (fun _ => .ok resp200noCT) demoParse 15 3 5 =
      (.error (.apiError .fetchFailure), [.request 15]) :=
  c10_missing_content_type (fun _ => .ok resp200noCT) demoParse 3 15 5 resp200noCT
    (by decide) rfl (by decide) (by decide) rfl

/-- C10 counterexample: a 202 response with no `content-type` header under
`retries=1` raises the terminal RetryableRequest, not APIError — the
missing header is never examined — so the claim fails for status 202. -/
theorem c10_counterexample :
    get_parsed_xml_response (fun _ => .ok resp202noCT) demoParse 15 1 5 =
      (.error (.retryableRequest (some 1)), [.request 15])
    ∧ (.error (.retryableRequest (some 1)) : Except FetchError XmlElement) ≠
        .error (.apiError .fetchFailure) := by
  constructor
  · simp [get_parsed_xml_response, fetchLoop, resp202noCT]
  · simp

/-! ## C6 -/

/-- C6 (amended): reading an attribute on a `DictObject` returns the
mapping's value for a present key and fails with `AttributeError` for an
absent one — PROVIDED the name is not shadowed by the instance storage
field or a class method.  Reading the internal storage field `_data`
itself does NOT fail: ordinary instance-attribute lookup finds it before
the `__getattr__` hook runs, and it returns the whole internal mapping;
likewise `data` resolves to the accessor method. -/
theorem c6_getattr_spec {V : Type u} (data : List (String × V)) (name : String)
    (v : V) (h1 : name ≠ "_data") (h2 : name ≠ "data") (h3 : name ≠ "__init__")
    (h4 : name ≠ "__getattr__") :
    (data.lookup name = some v → DictObject.getattr data name = .ok (.val v))
    ∧ (data.lookup name = none → DictObject.getattr data name = .error ())
    ∧ DictObject.getattr data "_data" = .ok .rawMap
    ∧ DictObject.getattr data "data" = .ok .method := by
  refine ⟨fun hv => ?_, fun hv => ?_, ?_, ?_⟩ <;>
    simp [DictObject.getattr, h1, h2, h3, h4] <;> simp [hv]

/-- C6 witness: on the mapping `{alpha: 1, beta: 2}`, reading `beta`
returns 2, reading the absent `gamma` raises `AttributeError`, and reading
`_data` returns the internal mapping. -/
theorem c6_witness :
    DictObject.getattr [("alpha", (1 : ℕ)), ("beta", 2)] "beta" = .ok (.val 2)
    ∧ DictObject.getattr [("alpha", (1 : ℕ)), ("beta", 2)] "gamma" = .error ()
    ∧ DictObject.getattr [("alpha", (1 : ℕ)), ("beta", 2)] "_data" = .ok .rawMap :=
  ⟨(c6_getattr_spec [("alpha", 1), ("beta", 2)] "beta" 2 (by decide) (by decide)
      (by decide) (by decide)).1 (by decide),
   (c6_getattr_spec [("alpha", 1), ("beta", 2)] "gamma" 2 (by decide) (by decide)
      (by decide) (by decide)).2.1 (by decide),
   (c6_getattr_spec [("alpha", 1), ("beta", 2)] "gamma" 2 (by decide) (by decide)
      (by decide) (by decide)).2.2.1⟩

/-- C6 counterexample: reading the internal storage field `_data` on a
`DictObject` wrapping the empty mapping returns the internal mapping —
it does not fail with `AttributeError` as the claim asserts. -/
theorem c6_counterexample :
    DictObject.getattr ([] : List (String × ℕ)) "_data" = .ok .rawMap
    ∧ DictObject.getattr ([] : List (String × ℕ)) "_data" ≠ .error () := by
  constructor
  · rfl
  · decide

/-! ## Collection helper lemmas -/

/-- Looking up a key in an appended association list searches the left
part first. -/
theorem lookup_append_of_none {α : Type u} {β : Type v} [BEq α] (l1 l2 : List (α × β))
    (a : α) (h : l1.lookup a = none) : (l1 ++ l2).lookup a = l2.lookup a := by
  induction l1 with
  | nil => simp
  | cons p rest ih =>
    obtain ⟨k, w⟩ := p
    by_cases hk : a == k
    · simp [List.lookup, hk] at h
    · simp [List.lookup, hk] at h ⊢
      exact ih h

/-- After `__init__` on a mapping without an `"items"` key, the `"items"`
entry is the empty list. -/
theorem lookup_init_items {R : Type u} {M : Type v} (data : CollectionData R M)
    (h : data.lookup "items" = none) :
    (Collection.init data).lookup "items" = some (CollVal.items ([] : List R)) := by
  unfold Collection.init
  rw [h]
  simp
  rw [lookup_append_of_none _ _ _ h]
  simp [List.lookup]

/-- Replacing every `"items"` entry finds the replacement on lookup,
provided an `"items"` entry exists at all. -/
theorem lookup_map_items {R : Type u} {M : Type v} (c : CollectionData R M)
    (w v0 : CollVal R M) (h : c.lookup "items" = some w) :
    (c.map fun p => if p.1 = "items" then ("items", v0) else p).lookup "items"
      = some v0 := by
  induction c with
  | nil => simp [List.lookup] at h
  | cons p rest ih =>
    obtain ⟨k, x⟩ := p
    by_cases hk : k = "items"
    · subst hk
      simp [List.lookup]
    · have hbk : ("items" == k) = false := beq_eq_false_iff_ne.mpr fun he => hk he.symm
      rw [List.map_cons, if_neg hk]
      simp only [List.lookup, hbk] at h ⊢
      exact ih h

/-- `add_game` succeeds on a state whose `"items"` entry is a list and
appends the record to it. -/
theorem add_game_items {R : Type u} {M : Type v} (c : CollectionData R M)
    (l : List R) (g : R) (h : c.lookup "items" = some (CollVal.items l)) :
    ∃ c2, Collection.add_game c g = some c2
      ∧ c2.lookup "items" = some (CollVal.items (l ++ [g])) := by
  refine ⟨_, by unfold Collection.add_game; rw [h], ?_⟩
  exact lookup_map_items c _ _ h

/-- Appending a whole list of games keeps the state defined and extends
the `"items"` entry in order. -/
theorem addGames_items {R : Type u} {M : Type v} (c : CollectionData R M)
    (l : List R) (gs : List R) (h : c.lookup "items" = some (CollVal.items l)) :
    ∃ c2, Collection.addGames (some c) gs = some c2
      ∧ c2.lookup "items" = some (CollVal.items (l ++ gs)) := by
  induction gs generalizing c l with
  | nil => exact ⟨c, rfl, by simpa using h⟩
  | cons g gs ih =>
    obtain ⟨c1, hc1, hl1⟩ := add_game_items c l g h
    obtain ⟨c2, hc2, hl2⟩ := ih c1 (l ++ [g]) hl1
    refine ⟨c2, ?_, by simpa using hl2⟩
    unfold Collection.addGames at hc2 ⊢
    simpa [hc1] using hc2

/-! ## C7 -/

/-- C7: starting from a mapping without an `items` entry, `__init__`
installs an empty item list; after appending two raw records the length is
2, and `iteritems` — a pure function of the collection state, matching the
fresh generator each Python call constructs — yields exactly the two
wrapped entities in insertion order, identically on every invocation, with
the length still 2 (iteration reads but never changes the state).  In
general, after appending any list of raw records the length equals the
number of appended records. -/
theorem c7_collection_length_iter {R : Type u} {M : Type v}
    (data : CollectionData R M) (g1 g2 : R) (h : data.lookup "items" = none) :
    (Collection.addGames (some (Collection.init data)) [g1, g2]).bind
        Collection.length = some 2
    ∧ (Collection.addGames (some (Collection.init data)) [g1, g2]).bind
        Collection.iteritems = some [Boardgame.mk g1, Boardgame.mk g2]
    ∧ ∀ gs : List R, (Collection.addGames (some (Collection.init data)) gs).bind
        Collection.length = some gs.length := by
  have h0 := lookup_init_items data h
  refine ⟨?_, ?_, fun gs => ?_⟩
  · obtain ⟨c2, hc2, hl2⟩ := addGames_items _ [] [g1, g2] h0
    rw [hc2]
    simp [Collection.length, hl2]
  · obtain ⟨c2, hc2, hl2⟩ := addGames_items _ [] [g1, g2] h0
    rw [hc2]
    simp [Collection.iteritems, hl2]
  · obtain ⟨c2, hc2, hl2⟩ := addGames_items _ [] gs h0
    rw [hc2]
    simp [Collection.length, hl2]

/-- C7 witness: a collection built from `{owner: "bob"}` (no items entry),
with the records 1 and 2 appended, has length 2 and iterates to the two
wrapped records in order; appending three records instead gives
length 3. -/
theorem c7_witness :
    (Collection.addGames
        (some (Collection.init [("owner", CollVal.scalar "bob")])) [(1 : ℕ), 2]).bind
        Collection.length = some 2
    ∧ (Collection.addGames
        (some (Collection.init [("owner", CollVal.scalar "bob")])) [(1 : ℕ), 2]).bind
        Collection.iteritems = some [Boardgame.mk 1, Boardgame.mk 2]
    ∧ (Collection.addGames
        (some (Collection.init [("owner", CollVal.scalar "bob")])) [(5 : ℕ), 6, 7]).bind
        Collection.length = some 3 := by
  have h := c7_collection_length_iter
    ([("owner", CollVal.scalar "bob")] : CollectionData ℕ String) 1 2 (by decide)
  exact ⟨h.1, h.2.1, h.2.2 [5, 6, 7]⟩

/-! ## C8 -/

/-- The accumulator-passing loop of `xml_subelement_attr_list` is the
monadic map over the matching children, in document order. -/
theorem attrListLoop_eq_traverse (f : XmlElement → Except Unit (Option Pv))
    (l : List XmlElement) (acc : List (Option Pv)) :
    attrListLoop f l acc = (traverseElems f l).map (acc ++ ·) := by
  induction l generalizing acc with
  | nil => simp [attrListLoop, traverseElems, Except.map]
  | cons e rest ih =>
    cases hfe : f e with
    | error u =>
      simp [attrListLoop, traverseElems, hfe, Except.map]
    | ok v =>
      simp only [attrListLoop, traverseElems, hfe, ih (acc ++ [v])]
      cases hrest : traverseElems f rest <;>
        simp [hrest, Except.map]

/-- C8: the guards and fallbacks of the scalar extraction and the
per-element/ordering contract of the list form.  A `none` node or an empty
child-tag name returns `None` even when a default is given (both forms);
a missing child or missing attribute returns the default; a conversion
failure returns the default under `quiet=True` and propagates under
`quiet=False`; and the list form maps the same per-element rule over the
matching children in document order, propagating a non-quiet conversion
failure. -/
theorem c8_xml_attr_extraction :
    (∀ st conv a d q, xml_subelement_attr none st conv a d q = .ok none)
    ∧ (∀ el conv a d q, xml_subelement_attr (some el) "" conv a d q = .ok none)
    ∧ (∀ st conv a d q, xml_subelement_attr_list none st conv a d q = .ok none)
    ∧ (∀ el conv a d q, xml_subelement_attr_list (some el) "" conv a d q = .ok none)
    ∧ (∀ el st conv a d q, st ≠ "" → el.find st = none →
        xml_subelement_attr (some el) st conv a d q = .ok d)
    ∧ (∀ el st sub conv a d q, st ≠ "" → el.find st = some sub →
        sub.attrib.lookup a = none →
        xml_subelement_attr (some el) st conv a d q = .ok d)
    ∧ (∀ el st sub f a d s u, st ≠ "" → el.find st = some sub →
        sub.attrib.lookup a = some s → f s = .error u →
        xml_subelement_attr (some el) st (some f) a d true = .ok d
        ∧ xml_subelement_attr (some el) st (some f) a d false = .error u)
    ∧ (∀ e conv a d q, e.attrib.lookup a = none → attrElemValue conv a d q e = .ok d)
    ∧ (∀ e f a d s u, e.attrib.lookup a = some s → f s = .error u →
        attrElemValue (some f) a d true e = .ok d
        ∧ attrElemValue (some f) a d false e = .error u)
    ∧ (∀ el st conv a d q, st ≠ "" →
        xml_subelement_attr_list (some el) st conv a d q
          = (traverseElems (attrElemValue conv a d q) (el.findall st)).map some) := by
  refine ⟨fun st conv a d q => rfl, fun el conv a d q => rfl,
    fun st conv a d q => rfl, fun el conv a d q => rfl,
    fun el st conv a d q hst hf => ?_,
    fun el st sub conv a d q hst hf ha => ?_,
    fun el st sub f a d s u hst hf ha hc => ?_,
    fun e conv a d q ha => ?_,
    fun e f a d s u ha hc => ?_,
    fun el st conv a d q hst => ?_⟩
  · simp [xml_subelement_attr, hst, hf]
  · simp [xml_subelement_attr, hst, hf, ha]
  · constructor <;> simp [xml_subelement_attr, hst, hf, ha, hc]
  · simp [attrElemValue, ha]
  · constructor <;> simp [attrElemValue, ha, hc]
  · simp only [xml_subelement_attr_list, if_neg hst, attrListLoop_eq_traverse]
    cases h : traverseElems (attrElemValue conv a d q) (el.findall st) <;>
      simp [h, Except.map]

/-- C8 witness: on the sample node — a missing child yields the default 7;
a present child whose attribute value `"abc"` fails integer conversion
yields the default under `quiet=True` and propagates under `quiet=False`;
a child without the attribute yields the default; and the list form
collects both `present` children's values in document order. -/
theorem c8_witness :
    xml_subelement_attr (some demoEl) "missing" none "value" (some (.int 7)) false
      = .ok (some (.int 7))
    ∧ (xml_subelement_attr (some demoEl) "present" (some convInt) "value"
        (some (.int 7)) true = .ok (some (.int 7))
      ∧ xml_subelement_attr (some demoEl) "present" (some convInt) "value"
        (some (.int 7)) false = .error ())
    ∧ xml_subelement_attr (some demoEl) "noval" none "value" (some (.int 7)) false
      = .ok (some (.int 7))
    ∧ xml_subelement_attr_list (some demoEl) "present" none "value" none false
      = .ok (some [some (.str "abc"), some (.str "def")]) := by
  refine ⟨?_, ?_, ?_, ?_⟩
  · exact c8_xml_attr_extraction.2.2.2.2.1 demoEl "missing" none "value"
      (some (.int 7)) false (by decide) rfl
  · exact c8_xml_attr_extraction.2.2.2.2.2.2.1 demoEl "present"
      (.mk "present" [("value", "abc")] none []) convInt "value" (some (.int 7))
      "abc" () (by decide) rfl rfl rfl
  · exact c8_xml_attr_extraction.2.2.2.2.2.1 demoEl "noval"
      (.mk "noval" [("other", "x")] none []) none "value" (some (.int 7)) false
      (by decide) rfl rfl
  · rw [c8_xml_attr_extraction.2.2.2.2.2.2.2.2.2 demoEl "present" none "value"
      none false (by decide)]
    rfl

/-! ## C9 -/

/-- C9: the session factory configures `memory:///?ttl=60` with ttl 60,
configures `sqlite:///x.db?ttl=10&fast_save=1` with fast_save true (and
ttl 10, cache path `/x.db`), rejects the unrecognized scheme `foo://bar`
with ConfigurationError, and maps every URI the URL parser fails on to
ConfigurationError as well. -/
theorem c9_cache_session_uri :
    get_cache_session_from_uri "memory:///?ttl=60" = .memorySession 60
    ∧ get_cache_session_from_uri "sqlite:///x.db?ttl=10&fast_save=1"
      = .sqliteSession "/x.db" 10 true
    ∧ get_cache_session_from_uri "foo://bar" = .configurationError
    ∧ ∀ uri, urlparseModel uri = .error () →
        get_cache_session_from_uri uri = .configurationError := by
  refine ⟨by decide, by decide, by decide, fun uri h => ?_⟩
  unfold get_cache_session_from_uri
  rw [h]

/-- C9 witness: `http://[` — an unbalanced IPv6 bracket, the URL parser's
failure mode — is mapped to ConfigurationError. -/
theorem c9_witness :
    urlparseModel "http://[" = .error ()
    ∧ get_cache_session_from_uri "http://[" = .configurationError :=
  ⟨by decide, c9_cache_session_uri.2.2.2 "http://[" (by decide)⟩
